import Mathlib

/-!
Verification development for the FinGuard dashboard
(`src/frontend/frontend/src/App.js`).

The component holds hardcoded data (a portfolio with seven holdings, an
audit log with two entries) and a handful of computations: the drift-alert
filter, the alert banner condition, the simulated rebalance handler, and
the modal/tab state updates.  Monetary and percentage quantities are JS
number literals with at most two decimal places; they are embedded as
exact rationals (`ℚ`).  Parts of the system that the repository describes
but does not implement (the audit-ledger status-transition function and
the hash-chained ledger verification) are modelled from the specification
and are marked as such in their doc comments.
-/

namespace FinGuard

/-- A row of `portfolio.holdings` in App.js: symbol, display name,
quantity, unit price, value, current allocation percent, target percent,
drift percent, and category key. -/
structure Holding where
  symbol : String
  name : String
  qty : ℚ
  price : ℚ
  value : ℚ
  allocation : ℚ
  target : ℚ
  drift : ℚ
  category : String
deriving DecidableEq, Repr

/-- The four-key allocation objects `portfolio.target` / `portfolio.current`
in App.js. -/
structure CategoryMap where
  stocks : ℚ
  crypto : ℚ
  bonds : ℚ
  etfs : ℚ
deriving DecidableEq, Repr

/-- Look up a category key in a `CategoryMap`, mirroring JS property
access by the category strings used in the holdings. -/
def CategoryMap.get (m : CategoryMap) : String → ℚ
  | "stocks" => m.stocks
  | "crypto" => m.crypto
  | "bonds" => m.bonds
  | "etfs" => m.etfs
  | _ => 0

/-- The `portfolio` object of App.js (lines 12-35). -/
structure Portfolio where
  totalValue : ℚ
  target : CategoryMap
  current : CategoryMap
  holdings : List Holding
deriving DecidableEq, Repr

/-- The hardcoded portfolio state of App.js, values copied verbatim. -/
def portfolio : Portfolio where
  totalValue := 125420.50
  target := { stocks := 40, crypto := 20, bonds := 25, etfs := 15 }
  current := { stocks := 35, crypto := 28, bonds := 22, etfs := 15 }
  holdings := [
    { symbol := "AAPL", name := "Apple Inc.", qty := 50, price := 175.20,
      value := 8760, allocation := 7.0, target := 10, drift := -3.0, category := "stocks" },
    { symbol := "MSFT", name := "Microsoft", qty := 30, price := 380.50,
      value := 11415, allocation := 9.1, target := 10, drift := -0.9, category := "stocks" },
    { symbol := "GOOGL", name := "Google", qty := 20, price := 142.30,
      value := 2846, allocation := 2.3, target := 5, drift := -2.7, category := "stocks" },
    { symbol := "BTC", name := "Bitcoin", qty := 0.5, price := 62000,
      value := 31000, allocation := 24.7, target := 15, drift := 9.7, category := "crypto" },
    { symbol := "ETH", name := "Ethereum", qty := 2, price := 2200,
      value := 4400, allocation := 3.5, target := 5, drift := -1.5, category := "crypto" },
    { symbol := "VBMFX", name := "Vanguard Bonds", qty := 250, price := 110.20,
      value := 27550, allocation := 22.0, target := 25, drift := -3.0, category := "bonds" },
    { symbol := "SPY", name := "S&P 500 ETF", qty := 40, price := 445.50,
      value := 17820, allocation := 14.2, target := 15, drift := -0.8, category := "etfs" }
  ]

/-- The drift-alert filter of App.js line 76,
`holdings.filter(h => Math.abs(h.drift) > t)`, with the threshold as a
parameter (the source instantiates it at the literal 2.5). -/
def driftAlertsAt (t : ℚ) (hs : List Holding) : List Holding :=
  hs.filter (fun h => |h.drift| > t)

/-- App.js line 76: `portfolio.holdings.filter(h => Math.abs(h.drift) > 2.5)`. -/
def driftAlerts : List Holding :=
  driftAlertsAt 2.5 portfolio.holdings

/-- App.js line 205: the alert banner renders exactly when
`driftAlerts.length > 0`. -/
def alertBannerShownAt (t : ℚ) (hs : List Holding) : Bool :=
  decide (0 < (driftAlertsAt t hs).length)

/-- One element of a `trades` array in App.js: `action` is the literal
string `"BUY"` or `"SELL"`. -/
structure Trade where
  action : String
  symbol : String
  amount : ℚ
  value : ℚ
deriving DecidableEq, Repr

/-- The `impact` object of an audit-log entry in App.js (three display
strings). -/
structure Impact where
  riskReduction : String
  expectedReturn : String
  sharpeImprovement : String
deriving DecidableEq, Repr

/-- An entry of the `auditLog` array in App.js (lines 37-73). -/
structure AuditEntry where
  id : String
  timestamp : String
  action : String
  reason : String
  aiConfidence : ℚ
  trades : List Trade
  status : String
  impact : Impact
deriving DecidableEq, Repr

/-- The hardcoded audit log of App.js, values copied verbatim. -/
def auditLog : List AuditEntry := [
  { id := "AL-20251018-001",
    timestamp := "2025-10-18T09:15:23Z",
    action := "Reduce BTC allocation by 9.7%",
    reason := "Bitcoin allocation exceeded target by 9.7%. Volatility increased by 32% over past 7 days. Risk-adjusted return optimization suggests reallocation to lower-volatility assets.",
    aiConfidence := 0.94,
    trades := [
      { action := "SELL", symbol := "BTC", amount := 0.12, value := 7440 },
      { action := "BUY", symbol := "AAPL", amount := 25, value := 4380 },
      { action := "BUY", symbol := "VBMFX", amount := 28, value := 3085 }
    ],
    status := "pending",
    impact := { riskReduction := "12.3%", expectedReturn := "+2.1% annualized",
                sharpeImprovement := "+0.15" } },
  { id := "AL-20251015-002",
    timestamp := "2025-10-15T14:22:10Z",
    action := "Rebalance stocks allocation",
    reason := "Market correction detected. Tech sector down 5.2%. Portfolio stocks allocation fell below target threshold (35% vs 40% target).",
    aiConfidence := 0.88,
    trades := [
      { action := "BUY", symbol := "GOOGL", amount := 15, value := 2134 },
      { action := "SELL", symbol := "VBMFX", amount := 20, value := 2204 }
    ],
    status := "executed",
    impact := { riskReduction := "3.1%", expectedReturn := "+1.4% annualized",
                sharpeImprovement := "+0.08" } }
]

/-- The object stored in `rebalanceResult` state by `handleRebalance`
(App.js lines 102-106): the first audit entry's trades, impact and
confidence. -/
structure RebalanceResult where
  trades : List Trade
  impact : Impact
  confidence : ℚ
deriving DecidableEq, Repr

/-- Build the rebalance result from an audit log, as `handleRebalance`
does from `auditLog[0]`; `none` if the log is empty (the source indexes
position 0 of its fixed two-element log). -/
def mkRebalanceResult (log : List AuditEntry) : Option RebalanceResult :=
  log.head?.map (fun e => ⟨e.trades, e.impact, e.aiConfidence⟩)

/-- The React state of `FinGuardDashboard`: the four `useState` cells plus
the two data cells (`portfolio`, `auditLog`) for which no setter is ever
destructured. -/
structure DashState where
  activeTab : String
  isRebalancing : Bool
  showRebalanceModal : Bool
  rebalanceResult : Option RebalanceResult
  portfolio : Portfolio
  auditLog : List AuditEntry
deriving DecidableEq, Repr

/-- The initial component state: `useState` initialisers of App.js. -/
def initState : DashState where
  activeTab := "dashboard"
  isRebalancing := false
  showRebalanceModal := false
  rebalanceResult := none
  portfolio := portfolio
  auditLog := auditLog

/-- The user-visible operations of the dashboard.  `rebalanceClick` is the
synchronous part of `handleRebalance`; `rebalanceTimeoutFire` is its
`setTimeout` callback; `executeRebalance` and `reviewLater` are the two
modal buttons; `setTab` is the navigation bar. -/
inductive UIAction where
  | setTab (t : String)
  | rebalanceClick
  | rebalanceTimeoutFire
  | executeRebalance
  | reviewLater
deriving DecidableEq, Repr

/-- One step of the dashboard state machine, translating each `setXxx`
call sequence of App.js. -/
def step (s : DashState) : UIAction → DashState
  | .setTab t => { s with activeTab := t }
  | .rebalanceClick => { s with isRebalancing := true }
  | .rebalanceTimeoutFire =>
      { s with isRebalancing := false,
               rebalanceResult := mkRebalanceResult s.auditLog,
               showRebalanceModal := true }
  | .executeRebalance => { s with showRebalanceModal := false, activeTab := "audit" }
  | .reviewLater => { s with showRebalanceModal := false }

/-- Run a sequence of UI actions from a state. -/
def run (s : DashState) : List UIAction → DashState
  | [] => s
  | a :: as => run (step s a) as

/-- Sum of the `value` fields of a list of holdings. -/
def sumValues (hs : List Holding) : ℚ :=
  (hs.map Holding.value).sum

/-- Total value held in one category: sum of the values of the holdings
whose `category` field equals `c`. -/
def categoryValue (hs : List Holding) (c : String) : ℚ :=
  sumValues (hs.filter (fun h => h.category == c))

/-- Sum of the `value` fields of the trades whose `action` is `a`. -/
def sumSide (a : String) (ts : List Trade) : ℚ :=
  ((ts.filter (fun t => t.action == a)).map Trade.value).sum

/-- Net cash flow of a trade list: BUY total minus SELL total. -/
def buyMinusSell (ts : List Trade) : ℚ :=
  sumSide "BUY" ts - sumSide "SELL" ts

/-- Modelled from the spec: the typed ledger errors; only
`InvalidTransition` is needed here (the repository has no ledger code, the
UI only stores `status` strings). -/
inductive LedgerError where
  | InvalidTransition
deriving DecidableEq, Repr

/-- Modelled from the spec: the allowed status state graph
`pending → approved`, `pending → rejected`, `approved → executed`; missing
from the source, which never changes a status. -/
def allowedTransition (old new : String) : Bool :=
  (old == "pending" && (new == "approved" || new == "rejected")) ||
  (old == "approved" && new == "executed")

/-- Modelled from the spec: the AuditLedger status transition, missing
from the source.  A transition outside the allowed graph fails with the
typed error `InvalidTransition`; a legal one updates only the `status`
field. -/
def transitionEntry (e : AuditEntry) (new : String) : Except LedgerError AuditEntry :=
  if allowedTransition e.status new then Except.ok { e with status := new }
  else Except.error LedgerError.InvalidTransition

/-- Modelled from the spec: an injective hash over serialized byte
sequences, standing in for the collision-free behaviour assumed of the
chain hash `H`. -/
def hashBytes : List ℕ → ℕ
  | [] => 0
  | b :: bs => Nat.pair b (hashBytes bs) + 1

/-- Modelled from the spec: a ledger entry as stored — its serialized
content together with its chain hash. -/
structure ChainedEntry where
  content : List ℕ
  entryHash : ℕ
deriving DecidableEq, Repr

/-- Modelled from the spec: append-only chain construction,
`hash(entry_n) = H(serialize(entry_n) ++ hash(entry_(n-1)))`. -/
def buildLedger (prev : ℕ) : List (List ℕ) → List ChainedEntry
  | [] => []
  | c :: cs =>
      let h := hashBytes (c ++ [prev])
      ⟨c, h⟩ :: buildLedger h cs

/-- Modelled from the spec: chain verification from a given previous
hash — recompute every entry hash and compare with the stored one. -/
def verifyFrom (prev : ℕ) : List ChainedEntry → Bool
  | [] => true
  | e :: es =>
      (hashBytes (e.content ++ [prev]) == e.entryHash) && verifyFrom e.entryHash es

/-- Modelled from the spec: `AuditLedger.verify()` — full verification
from the genesis hash 0. -/
def ledgerVerify (l : List ChainedEntry) : Bool :=
  verifyFrom 0 l

/-- Retroactively alter the serialized content of the entry at position
`i`, leaving every stored hash untouched. -/
def tamper : List ChainedEntry → ℕ → List ℕ → List ChainedEntry
  | [], _, _ => []
  | e :: es, 0, c => ⟨c, e.entryHash⟩ :: es
  | e :: es, i + 1, c => e :: tamper es i c

/-- Sortedness in descending order of absolute drift, the order the spec
asserts for the violations list. -/
def sortedByAbsDriftDesc (hs : List Holding) : Prop :=
  List.Pairwise (fun a b => |b.drift| ≤ |a.drift|) hs

/-- Concrete evaluation of the drift filter on the hardcoded holdings:
the violations, in order, are AAPL, GOOGL, BTC, VBMFX. -/
theorem driftAlerts_eval :
    driftAlerts.map Holding.symbol = ["AAPL", "GOOGL", "BTC", "VBMFX"] := by
  simp only [driftAlerts, driftAlertsAt, portfolio, List.filter_cons, List.filter_nil,
    decide_eq_true_eq]
  norm_num [abs_of_nonneg]

/-- The modelled hash is injective, so distinct serialized contents never
collide. -/
theorem hashBytes_injective : Function.Injective hashBytes := by
  intro as bs h
  induction as generalizing bs with
  | nil =>
    cases bs with
    | nil => rfl
    | cons b bs => simp [hashBytes] at h
  | cons a as ih =>
    cases bs with
    | nil => simp [hashBytes] at h
    | cons b bs =>
      simp only [hashBytes, Nat.add_right_cancel_iff] at h
      obtain ⟨h1, h2⟩ := Nat.pair_eq_pair.mp h
      rw [h1, ih h2]

/-- A freshly built chain always verifies, from any previous hash. -/
theorem verifyFrom_buildLedger (cs : List (List ℕ)) :
    ∀ prev : ℕ, verifyFrom prev (buildLedger prev cs) = true := by
  induction cs with
  | nil => intro prev; rfl
  | cons c cs ih => intro prev; simp [buildLedger, verifyFrom, ih]

/-- Altering the content of any entry of a built chain, while keeping all
stored hashes, makes verification fail. -/
theorem verifyFrom_tamper_false (cs : List (List ℕ)) :
    ∀ (prev i : ℕ) (c cAlt : List ℕ), cs.get? i = some c → cAlt ≠ c →
      verifyFrom prev (tamper (buildLedger prev cs) i cAlt) = false := by
  induction cs with
  | nil => intro prev i c cAlt hget _; simp at hget
  | cons c0 cs ih =>
    intro prev i c cAlt hget hne
    cases i with
    | zero =>
      have hc : c0 = c := by simpa using hget
      subst hc
      simp only [buildLedger, tamper, verifyFrom]
      have hneq : hashBytes (cAlt ++ [prev]) ≠ hashBytes (c0 ++ [prev]) := by
        intro hEq
        exact hne (List.append_cancel_right (hashBytes_injective hEq))
      simp [beq_iff_eq, hneq]
    | succ i =>
      have hget' : cs.get? i = some c := by simpa using hget
      simp only [buildLedger, tamper, verifyFrom]
      simp [ih _ i c cAlt hget' hne]

/-- No step of the dashboard changes the portfolio cell. -/
theorem step_portfolio (s : DashState) (a : UIAction) :
    (step s a).portfolio = s.portfolio := by
  cases a <;> rfl

/-- No step of the dashboard changes the audit-log cell. -/
theorem step_auditLog (s : DashState) (a : UIAction) :
    (step s a).auditLog = s.auditLog := by
  cases a <;> rfl

/-- Running any sequence of UI actions leaves the portfolio and audit-log
cells unchanged. -/
theorem run_fixed_data (acts : List UIAction) :
    ∀ s : DashState,
      (run s acts).portfolio = s.portfolio ∧ (run s acts).auditLog = s.auditLog := by
  induction acts with
  | nil => intro s; exact ⟨rfl, rfl⟩
  | cons a as ih =>
    intro s
    exact ⟨((ih (step s a)).1).trans (step_portfolio s a),
           ((ih (step s a)).2).trans (step_auditLog s a)⟩

/-- Running an appended action sequence is running the two parts in
order. -/
theorem run_append (s : DashState) (as bs : List UIAction) :
    run s (as ++ bs) = run (run s as) bs := by
  induction as generalizing s with
  | nil => rfl
  | cons a as ih => exact ih (step s a)

/-- Full record-level evaluation of the drift filter on the hardcoded
holdings. -/
theorem driftAlerts_eval_full :
    driftAlerts = [
      { symbol := "AAPL", name := "Apple Inc.", qty := 50, price := 175.20,
        value := 8760, allocation := 7.0, target := 10, drift := -3.0, category := "stocks" },
      { symbol := "GOOGL", name := "Google", qty := 20, price := 142.30,
        value := 2846, allocation := 2.3, target := 5, drift := -2.7, category := "stocks" },
      { symbol := "BTC", name := "Bitcoin", qty := 0.5, price := 62000,
        value := 31000, allocation := 24.7, target := 15, drift := 9.7, category := "crypto" },
      { symbol := "VBMFX", name := "Vanguard Bonds", qty := 250, price := 110.20,
        value := 27550, allocation := 22.0, target := 25, drift := -3.0, category := "bonds" }
    ] := by
  simp only [driftAlerts, driftAlertsAt, portfolio, List.filter_cons, List.filter_nil,
    decide_eq_true_eq]
  norm_num [abs_of_nonneg]

/-- Claim C1: on the hardcoded portfolio at threshold 2.5 the evaluation
does trigger, but the first entry of the violations list is AAPL (drift
-3.0), not BTC: the filter on line 76 keeps the holdings order and never
sorts, while the banner on line 214 hardcodes the name BTC for
`driftAlerts[0]` and so displays BTC as underweighted by 3.0%. -/
theorem c1_first_violation_is_aapl_not_btc :
    driftAlerts ≠ [] ∧
    driftAlerts.head?.map Holding.symbol = some "AAPL" ∧
    driftAlerts.head?.map Holding.symbol ≠ some "BTC" ∧
    "BTC" ∈ driftAlerts.map Holding.symbol ∧
    driftAlerts.head?.map Holding.drift = some (-3.0) := by
  rw [driftAlerts_eval_full]
  exact ⟨by simp, rfl, by simp, by simp, rfl⟩

/-- Claim C2: for every holdings list and every threshold, the alert
banner condition holds iff the violations list is non-empty, which holds
iff some holding has |drift| strictly above the threshold. -/
theorem c2_triggered_iff_violation (hs : List Holding) (t : ℚ) :
    (alertBannerShownAt t hs = true ↔ driftAlertsAt t hs ≠ []) ∧
    (driftAlertsAt t hs ≠ [] ↔ ∃ h ∈ hs, |h.drift| > t) := by
  constructor
  · simp [alertBannerShownAt, List.length_pos]
  · constructor
    · intro hne
      obtain ⟨x, hx⟩ := List.exists_mem_of_ne_nil _ hne
      simp only [driftAlertsAt, List.mem_filter, decide_eq_true_eq] at hx
      exact ⟨x, hx.1, hx.2⟩
    · rintro ⟨x, hxm, hxd⟩ heq
      have hmem : x ∈ driftAlertsAt t hs := by
        simp only [driftAlertsAt, List.mem_filter, decide_eq_true_eq]
        exact ⟨hxm, hxd⟩
      rw [heq] at hmem
      exact List.not_mem_nil x hmem

/-- Claim C3, counterexample: on the hardcoded input the violations list
is AAPL (|drift| 3.0), GOOGL (2.7), BTC (9.7), VBMFX (3.0), which is not
in descending order of |drift|. -/
theorem c3_counterexample_not_sorted :
    ¬ sortedByAbsDriftDesc driftAlerts := by
  intro h
  rw [driftAlerts_eval_full] at h
  simp only [sortedByAbsDriftDesc] at h
  have hGB := (List.pairwise_cons.mp (List.pairwise_cons.mp h).2).1 _
    (List.mem_cons_self _ _)
  norm_num [abs_of_nonneg] at hGB

/-- Claim C3 as amended: the violations list is the order-preserving
sublist of the input holdings consisting exactly of those with
|drift| > threshold; no sorting by |drift| is applied. -/
theorem c3_amended_order_preserving (t : ℚ) (hs : List Holding) :
    (driftAlertsAt t hs).Sublist hs ∧
    ∀ h : Holding, h ∈ driftAlertsAt t hs ↔ h ∈ hs ∧ |h.drift| > t := by
  refine ⟨List.filter_sublist _, fun h => ?_⟩
  simp [driftAlertsAt, List.mem_filter]

/-- Claim C4, counterexample: the hardcoded `totalValue` (125420.50) is
not the sum of the seven holdings' values (103791). -/
theorem c4_counterexample_total_ne_sum :
    portfolio.totalValue ≠ sumValues portfolio.holdings := by
  simp only [portfolio, sumValues, List.map_cons, List.map_nil, List.sum_cons,
    List.sum_nil]
  norm_num

/-- Claim C4 as amended: each holding's `value` equals quantity times
price, but the hardcoded `totalValue` differs from the sum of the
holdings' values, which is 103791. -/
theorem c4_amended_values :
    (portfolio.holdings.all fun h => h.value == h.qty * h.price) = true ∧
    sumValues portfolio.holdings = 103791 ∧
    portfolio.totalValue = 125420.50 ∧
    portfolio.totalValue ≠ sumValues portfolio.holdings := by
  refine ⟨?_, ?_, rfl, ?_⟩
  · simp only [portfolio, List.all_cons, List.all_nil, Bool.and_eq_true, beq_iff_eq]
    norm_num
  · simp only [portfolio, sumValues, List.map_cons, List.map_nil, List.sum_cons,
      List.sum_nil]
    norm_num
  · simp only [portfolio, sumValues, List.map_cons, List.map_nil, List.sum_cons,
      List.sum_nil]
    norm_num

/-- Claim C5, counterexample: the portfolio's total value is positive,
yet the hardcoded current-allocation figure for stocks (35) is not the
stocks value share of the total (23021 / 125420.50 × 100 ≈ 18.36). -/
theorem c5_counterexample_stocks_share :
    0 < portfolio.totalValue ∧
    categoryValue portfolio.holdings "stocks" / portfolio.totalValue * 100
      ≠ portfolio.current.get "stocks" := by
  have hget : portfolio.current.get "stocks" = 35 := rfl
  constructor
  · simp only [portfolio]
    norm_num
  · rw [hget]
    simp [portfolio, categoryValue, sumValues, List.filter_cons]
    norm_num

/-- Claim C5 as amended: the category map `portfolio.current` is
independent hardcoded data, not the category value shares (stocks:
hardcoded 35 vs actual share ≈ 18.36%); what does match the holdings is
each holding's own `allocation` field, which equals its value share of
`totalValue` (in percent) to within 0.05 percentage points. -/
theorem c5_amended_holding_allocations :
    (portfolio.holdings.all fun h =>
        decide (|h.allocation - h.value / portfolio.totalValue * 100| ≤ 0.05)) = true ∧
    categoryValue portfolio.holdings "stocks" = 23021 ∧
    portfolio.current.get "stocks" = 35 ∧
    categoryValue portfolio.holdings "stocks" / portfolio.totalValue * 100 ≠ 35 := by
  refine ⟨?_, ?_, rfl, ?_⟩
  · simp only [portfolio, List.all_cons, List.all_nil, Bool.and_eq_true,
      decide_eq_true_eq]
    norm_num [abs_of_nonneg]
  · simp [portfolio, categoryValue, sumValues, List.filter_cons]
    norm_num
  · simp [portfolio, categoryValue, sumValues, List.filter_cons]
    norm_num

/-- Net BUY-minus-SELL cash flow of the two hardcoded audit entries:
+25 dollars for AL-20251018-001 and -70 dollars for AL-20251015-002. -/
theorem auditLog_residuals_eval :
    auditLog.map (fun e => buyMinusSell e.trades) = [25, -70] := by
  simp [auditLog, buyMinusSell, sumSide, List.filter_cons]
  norm_num

/-- Claim C6, counterexample: neither hardcoded trade list is balanced —
the BUY totals differ from the SELL totals by +25 and -70 dollars, so the
plans are not self-funding at any zero (exact-balance) tolerance, and the
code configures no cash-drag tolerance at all. -/
theorem c6_counterexample_unbalanced :
    auditLog.map (fun e => buyMinusSell e.trades) = [25, -70] ∧
    ¬ ∀ e ∈ auditLog, buyMinusSell e.trades = 0 := by
  refine ⟨auditLog_residuals_eval, fun hall => ?_⟩
  have hmap : auditLog.map (fun e => buyMinusSell e.trades)
      = auditLog.map (fun _ => (0 : ℚ)) := List.map_congr_left hall
  rw [auditLog_residuals_eval] at hmap
  simp only [auditLog, List.map_cons, List.map_nil, List.cons.injEq] at hmap
  norm_num at hmap

/-- Claim C6 as amended: the BUY-minus-SELL residuals of the hardcoded
plans are exactly +25 and -70 dollars (nonzero, but below 0.1% of the
total portfolio value), and the plan the rebalance action returns is the
first entry's trade list, carrying the +25 residual. -/
theorem c6_amended_residuals :
    auditLog.map (fun e => buyMinusSell e.trades) = [25, -70] ∧
    (mkRebalanceResult auditLog).map (fun r => buyMinusSell r.trades) = some 25 ∧
    (auditLog.all fun e =>
        decide (|buyMinusSell e.trades| ≤ portfolio.totalValue * 0.001)) = true := by
  refine ⟨auditLog_residuals_eval, ?_, ?_⟩
  · simp [mkRebalanceResult, auditLog, buyMinusSell, sumSide, List.filter_cons]
    norm_num
  · simp only [auditLog, portfolio, List.all_cons, List.all_nil, Bool.and_eq_true,
      decide_eq_true_eq]
    simp [buyMinusSell, sumSide, List.filter_cons]
    norm_num [abs_le]

/-- Claim C7: the rebalance computation is deterministic — from any two
states reached by UI action sequences (the portfolio and audit-log data
being fixed), the result assembled by `handleRebalance` is the same, and
actually running the click-then-timeout pair stores the same
`rebalanceResult` either way. -/
theorem c7_rebalance_deterministic (acts1 acts2 : List UIAction) :
    mkRebalanceResult (run initState acts1).auditLog
      = mkRebalanceResult (run initState acts2).auditLog ∧
    (run initState (acts1 ++ [UIAction.rebalanceClick, UIAction.rebalanceTimeoutFire])).rebalanceResult
      = (run initState (acts2 ++ [UIAction.rebalanceClick, UIAction.rebalanceTimeoutFire])).rebalanceResult := by
  have k : ∀ acts : List UIAction,
      (run initState (acts ++ [UIAction.rebalanceClick, UIAction.rebalanceTimeoutFire])).rebalanceResult
        = mkRebalanceResult auditLog := by
    intro acts
    rw [run_append]
    have h : (run initState acts).auditLog = auditLog :=
      (run_fixed_data acts initState).2
    calc (run (run initState acts)
            [UIAction.rebalanceClick, UIAction.rebalanceTimeoutFire]).rebalanceResult
        = mkRebalanceResult (run initState acts).auditLog := rfl
      _ = mkRebalanceResult auditLog := by rw [h]
  constructor
  · rw [(run_fixed_data acts1 initState).2, (run_fixed_data acts2 initState).2]
  · rw [k acts1, k acts2]

/-- Witness for C7 at two concrete action sequences. -/
theorem c7_witness :
    mkRebalanceResult (run initState []).auditLog
      = mkRebalanceResult (run initState [UIAction.setTab "audit"]).auditLog :=
  (c7_rebalance_deterministic [] [UIAction.setTab "audit"]).1

/-- Claim C8: a successful status transition changes nothing but the
status field (decision content is immutable and nothing is deleted), and
in the spec-modelled hash-chained ledger, verification succeeds on an
untouched chain and fails whenever the serialized content of any single
past entry is altered while the stored hashes stay in place. -/
theorem c8_ledger_tamper_evidence :
    (∀ (e : AuditEntry) (st : String) (e2 : AuditEntry),
        transitionEntry e st = Except.ok e2 →
        e2.id = e.id ∧ e2.timestamp = e.timestamp ∧ e2.action = e.action ∧
        e2.reason = e.reason ∧ e2.aiConfidence = e.aiConfidence ∧
        e2.trades = e.trades ∧ e2.impact = e.impact) ∧
    (∀ contents : List (List ℕ), ledgerVerify (buildLedger 0 contents) = true) ∧
    (∀ (contents : List (List ℕ)) (i : ℕ) (c cAlt : List ℕ),
        contents.get? i = some c → cAlt ≠ c →
        ledgerVerify (tamper (buildLedger 0 contents) i cAlt) = false) := by
  refine ⟨?_, ?_, ?_⟩
  · intro e st e2 hok
    simp only [transitionEntry] at hok
    by_cases hcond : allowedTransition e.status st = true
    · rw [if_pos hcond] at hok
      injection hok with hok
      subst hok
      exact ⟨rfl, rfl, rfl, rfl, rfl, rfl, rfl⟩
    · rw [if_neg hcond] at hok
      exact Except.noConfusion hok
  · intro contents
    exact verifyFrom_buildLedger contents 0
  · intro contents i c cAlt hget hne
    exact verifyFrom_tamper_false contents 0 i c cAlt hget hne

/-- Witness for C8: a two-entry chain verifies when untouched, and fails
after the second entry's content is replaced. -/
theorem c8_witness :
    ledgerVerify (buildLedger 0 [[5]]) = true ∧
    ledgerVerify (tamper (buildLedger 0 [[1, 2], [3]]) 1 [4]) = false :=
  ⟨c8_ledger_tamper_evidence.2.1 [[5]],
   c8_ledger_tamper_evidence.2.2 [[1, 2], [3]] 1 [3] [4] rfl (by decide)⟩

/-- Claim C9: requesting pending-to-executed directly fails with the
typed error InvalidTransition, any request outside the allowed graph
fails the same way, this holds concretely for the pending entry
AL-20251018-001 at the head of the audit log, and the Execute Rebalance
button only closes the modal and switches to the audit tab — it changes
no entry status. -/
theorem c9_invalid_transition :
    (∀ e : AuditEntry, e.status = "pending" →
        transitionEntry e "executed" = Except.error LedgerError.InvalidTransition) ∧
    (∀ (e : AuditEntry) (st : String), allowedTransition e.status st = false →
        transitionEntry e st = Except.error LedgerError.InvalidTransition) ∧
    auditLog.head?.map (fun e => transitionEntry e "executed")
      = some (Except.error LedgerError.InvalidTransition) ∧
    (∀ s : DashState, (step s UIAction.executeRebalance).auditLog = s.auditLog ∧
        (step s UIAction.executeRebalance).activeTab = "audit") := by
  refine ⟨?_, ?_, ?_, ?_⟩
  · intro e h
    simp [transitionEntry, allowedTransition, h]
  · intro e st h
    simp [transitionEntry, h]
  · simp [auditLog, transitionEntry, allowedTransition]
  · intro s
    exact ⟨rfl, rfl⟩

/-- Witness for C9: a concrete pending entry is refused the direct move
to executed. -/
theorem c9_witness :
    transitionEntry
      { id := "T-1", timestamp := "2025-10-18T09:15:23Z", action := "none",
        reason := "test", aiConfidence := 1, trades := [], status := "pending",
        impact := { riskReduction := "0%", expectedReturn := "0%",
                    sharpeImprovement := "0" } }
      "executed" = Except.error LedgerError.InvalidTransition :=
  c9_invalid_transition.1 _ rfl

/-- Claim C10: no sequence of UI actions changes the portfolio or the
audit log; from the initial state they stay the hardcoded values, and the
timeout callback of `handleRebalance` only copies the head audit entry's
fields into the modal result, appending nothing. -/
theorem c10_no_mutation (acts : List UIAction) (s : DashState) :
    (run s acts).portfolio = s.portfolio ∧
    (run s acts).auditLog = s.auditLog ∧
    (run initState acts).portfolio = portfolio ∧
    (run initState acts).auditLog = auditLog ∧
    (step s UIAction.rebalanceTimeoutFire).rebalanceResult
      = mkRebalanceResult s.auditLog := by
  exact ⟨(run_fixed_data acts s).1, (run_fixed_data acts s).2,
    (run_fixed_data acts initState).1, (run_fixed_data acts initState).2, rfl⟩

/-- Witness for C10: after clicking Rebalance Now, letting the timeout
fire and executing, the audit log is still the hardcoded one. -/
theorem c10_witness :
    (run initState [UIAction.rebalanceClick, UIAction.rebalanceTimeoutFire,
      UIAction.executeRebalance]).auditLog = auditLog :=
  (c10_no_mutation [UIAction.rebalanceClick, UIAction.rebalanceTimeoutFire,
    UIAction.executeRebalance] initState).2.2.2.1

/-- Witness for C2 at the hardcoded holdings and the default threshold. -/
theorem c2_witness :
    alertBannerShownAt 2.5 portfolio.holdings = true ↔
      driftAlertsAt 2.5 portfolio.holdings ≠ [] :=
  (c2_triggered_iff_violation portfolio.holdings 2.5).1

/-- Witness for the amended C3 at the hardcoded holdings and the default
threshold. -/
theorem c3_witness :
    (driftAlertsAt 2.5 portfolio.holdings).Sublist portfolio.holdings :=
  (c3_amended_order_preserving 2.5 portfolio.holdings).1

end FinGuard
